import Mathlib

/-!
Verification of the task-completion monitor embedded in
src/static/js/app.js of the market-research-demo repository.

The monitor is the collection of methods of the global App object that
watch a long-running research task: startTaskStream, connectToStreamRobust,
handleRobustEvent and the typed event handlers, handleConnectionError,
startRobustMonitoring, showConnectionLostUI, startPeriodicStatusCheck,
showSuccessModal, cleanupConnections and cleanup.

Modelling conventions:
- The mutable fields of the App object that the monitor reads or writes are
  collected in MonitorState.  Timer handles are modelled by two booleans
  each: a field boolean (the JS field is non-null) and an active boolean
  (the underlying timer is still scheduled); clearInterval and clearTimeout
  set active to false, and only an explicit null assignment clears the
  field boolean.
- DOM writes, console output, modals, network requests and timer
  registrations are recorded as an ordered list of Effect values; they do
  not feed back into MonitorState.
- Asynchronous fetch responses are passed to the handlers as explicit
  arguments (Option CompletionResult, Option StatusResult); a none response
  models a network failure (the fetch or json call throwing).
- Fire-and-forget asynchronous calls to startRobustMonitoring from inside
  synchronous handlers are recorded as the Effect.startFallback effect; the
  body of startRobustMonitoring is modelled as its own function.
- A JavaScript exception escaping a handler is modelled by the JsResult
  type: thrown carries the state and effects accumulated before the throw,
  matching the semantics of mutations persisting past an exception.
-/

namespace MRApp

/-- Mutable monitor fields of the App object in src/static/js/app.js. -/
structure MonitorState where
  isTaskComplete : Bool
  reconnectAttempts : Nat
  maxReconnectAttempts : Nat
  lastEventTime : Nat
  /-- this.currentEventSource is non-null (an open EventSource is held). -/
  currentEventSource : Bool
  /-- value stored in this._reconnectTimeout (the wait time used as id). -/
  reconnectTimeoutField : Option Nat
  /-- the reconnect setTimeout is still scheduled. -/
  reconnectTimerActive : Bool
  /-- this.statusCheckInterval is non-null. -/
  statusCheckField : Bool
  /-- the periodic status interval is still scheduled. -/
  statusCheckActive : Bool
  /-- this._progressInterval is non-null. -/
  progressField : Bool
  /-- the progress animation interval is still scheduled. -/
  progressActive : Bool
  /-- this.pollingInterval is non-null (legacy polling fallback). -/
  pollingField : Bool
  /-- the legacy polling interval is still scheduled. -/
  pollingActive : Bool
  /-- the 30 second watchdog setTimeout of startTaskStream is scheduled. -/
  watchdogActive : Bool
  deriving DecidableEq, Repr

/-- Decoded JSON payload of one channel message; absent JS fields are none.
Wire shape: type, status, is_complete, message, sources_processed,
sources_total, recent_sources, log_level. -/
structure EventData where
  type : Option String := none
  status : Option String := none
  is_complete : Option Bool := none
  message : Option String := none
  sources_processed : Option Nat := none
  sources_total : Option Nat := none
  recent_sources : Option (List String) := none
  log_level : Option String := none
  deriving DecidableEq, Repr

/-- Response of the POST /monitor-task completion probe. -/
structure CompletionResult where
  success : Bool
  task_completed : Bool
  error : Option String
  deriving DecidableEq, Repr

/-- Response of the GET /task-status poll. -/
structure StatusResult where
  is_complete : Bool
  status : Option String
  deriving DecidableEq, Repr

/-- Observable actions of the monitor: console output, UI projections,
modals, channel and timer operations, and asynchronous invocations. -/
inductive Effect where
  | logMsg : String → Effect
  /-- updateStreamingProgress called with the given message and event type
  arguments (both may be undefined in JS, hence Option). -/
  | project : Option String → Option String → Effect
  /-- addSSEEvent called with message and event class. -/
  | sseEvent : String → String → Effect
  /-- updateConnectionStatus called with status and attempt count. -/
  | connStatus : String → Nat → Effect
  /-- showSuccessModal reached its UI section: the success outcome. -/
  | successModal : Effect
  /-- showErrorModal called with the given message: the error outcome. -/
  | errorModal : String → Effect
  | setLoading : Bool → Effect
  /-- setTimeout scheduling the redirect to /login. -/
  | scheduleRedirect : Effect
  /-- new EventSource created. -/
  | openChannel : Effect
  /-- EventSource.close called. -/
  | closeChannel : Effect
  /-- setTimeout scheduling a reconnect after the given wait in ms. -/
  | scheduleReconnect : Nat → Effect
  /-- clearTimeout on the reconnect timer. -/
  | clearReconnect : Effect
  /-- setInterval starting the periodic status check. -/
  | startStatusInterval : Effect
  /-- clearInterval on the periodic status check. -/
  | clearStatusInterval : Effect
  /-- clearInterval on the progress animation. -/
  | clearProgressInterval : Effect
  /-- clearInterval on the legacy polling fallback. -/
  | clearPollingInterval : Effect
  /-- asynchronous fire-and-forget call to startRobustMonitoring. -/
  | startFallback : Effect
  /-- asynchronous fire-and-forget call to manualStatusCheck. -/
  | manualCheck : Effect
  deriving DecidableEq, Repr

/-- UI projection effects: progress records, feed entries, connection
status text, and the outcome modals. -/
def Effect.isProjection : Effect → Bool
  | .project _ _ => true
  | .sseEvent _ _ => true
  | .connStatus _ _ => true
  | .successModal => true
  | .errorModal _ => true
  | _ => false

/-- Outcome projections: the success or error modal. -/
def Effect.isOutcome : Effect → Bool
  | .successModal => true
  | .errorModal _ => true
  | _ => false

/-- A reconnect wait was scheduled. -/
def Effect.isSchedule : Effect → Bool
  | .scheduleReconnect _ => true
  | _ => false

/-- The fallback monitor was invoked. -/
def Effect.isFallback : Effect → Bool
  | .startFallback => true
  | _ => false

/-- The push channel was closed. -/
def Effect.isClose : Effect → Bool
  | .closeChannel => true
  | _ => false

/-- Number of effects in the list satisfying the predicate. -/
def countE (p : Effect → Bool) (l : List Effect) : Nat :=
  (l.filter p).length

/-- Result of a handler that can raise a JavaScript exception: thrown
carries the state and effects accumulated before the throw. -/
inductive JsResult where
  | ok : MonitorState → List Effect → JsResult
  | thrown : MonitorState → List Effect → JsResult
  deriving DecidableEq, Repr

/-- State component of a handler result. -/
def JsResult.state : JsResult → MonitorState
  | .ok s _ => s
  | .thrown s _ => s

/-- Effect component of a handler result. -/
def JsResult.effects : JsResult → List Effect
  | .ok _ e => e
  | .thrown _ e => e

/-- The handler raised an exception. -/
def JsResult.isThrown : JsResult → Bool
  | .ok _ _ => false
  | .thrown _ _ => true

/-- JS truthiness of a possibly absent boolean field. -/
def truthy : Option Bool → Bool
  | some b => b
  | none => false

/-- JS template interpolation of a possibly undefined string. -/
def optStr : Option String → String
  | some s => s
  | none => "undefined"

/-- JS expression (o || d) on a possibly absent string: the empty string
is falsy. -/
def jsOrStr (o : Option String) (d : String) : String :=
  match o with
  | some s => if s = "" then d else s
  | none => d

/-- Boolean list prefix test over characters. -/
def charsHavePre : List Char → List Char → Bool
  | [], _ => true
  | _ :: _, [] => false
  | a :: as, b :: bs => a == b && charsHavePre as bs

/-- Boolean substring test over character lists. -/
def charsContain (pat : List Char) : List Char → Bool
  | [] => charsHavePre pat []
  | c :: cs => charsHavePre pat (c :: cs) || charsContain pat cs

/-- Models JavaScript String.prototype.includes. -/
def strIncludes (hay pat : String) : Bool :=
  charsContain pat.toList hay.toList

/-- stopPollingFallback, app.js lines 1033-1038: clears and nulls the
legacy polling interval when set. -/
def stopPollingFallback (s : MonitorState) : MonitorState × List Effect :=
  if s.pollingField then
    ({ s with pollingField := false, pollingActive := false },
     [Effect.clearPollingInterval])
  else (s, [])

/-- cleanupConnections, app.js lines 865-871: closes and nulls the
EventSource when held, then stops the legacy polling fallback. -/
def cleanupConnections (s : MonitorState) : MonitorState × List Effect :=
  let (s1, e1) :=
    if s.currentEventSource then
      ({ s with currentEventSource := false }, [Effect.closeChannel])
    else (s, [])
  let (s2, e2) := stopPollingFallback s1
  (s2, e1 ++ e2)

/-- showSuccessModal, app.js lines 222-278: sets the completion flag,
clears status interval, event source and reconnect timer when present,
adds a feed entry and renders the success outcome UI. -/
def showSuccessModal (s : MonitorState) : MonitorState × List Effect :=
  let s1 := { s with isTaskComplete := true }
  let (s2, e2) :=
    if s1.statusCheckField then
      ({ s1 with statusCheckField := false, statusCheckActive := false },
       [Effect.clearStatusInterval])
    else (s1, [])
  let (s3, e3) :=
    if s2.currentEventSource then
      ({ s2 with currentEventSource := false }, [Effect.closeChannel])
    else (s2, [])
  let (s4, e4) :=
    if s3.reconnectTimeoutField.isSome then
      ({ s3 with reconnectTimeoutField := none, reconnectTimerActive := false },
       [Effect.clearReconnect])
    else (s3, [])
  (s4, e2 ++ e3 ++ e4 ++
    [Effect.sseEvent "Research completed successfully!" "status",
     Effect.successModal])

/-- handleTaskCompletion, app.js lines 635-674: marks the task complete,
tears down connections, projects a completion notice, then resolves the
outcome from the completion probe response (passed explicitly) and resets
the loading state. -/
def handleTaskCompletion (s : MonitorState) (status : Option String)
    (resp : Option CompletionResult) : MonitorState × List Effect :=
  let s1 := { s with isTaskComplete := true }
  let (s2, e2) := cleanupConnections s1
  let e3 := Effect.project (some "Task completed, processing final results...")
    (some "completion")
  let (s4, e4) :=
    if status = some "completed" then
      match resp with
      | some r =>
        if r.success && r.task_completed then showSuccessModal s2
        else (s2, [Effect.errorModal
          (jsOrStr r.error "Failed to retrieve final results")])
      | none =>
        (s2, [Effect.logMsg "Final result retrieval error:",
          Effect.errorModal "Failed to retrieve final results"])
    else
      (s2, [Effect.errorModal ("Task failed with status: " ++ optStr status)])
  (s4, Effect.logMsg "Handling task completion:" :: e2 ++ [e3] ++ e4 ++
    [Effect.setLoading false])

/-- handleTaskStatusEvent, app.js lines 567-580: projects the status and,
when the completion flag is truthy, runs handleTaskCompletion. -/
def handleTaskStatusEvent (s : MonitorState) (ev : EventData)
    (resp : Option CompletionResult) : MonitorState × List Effect :=
  let e1 := Effect.project ev.message (some ("status." ++ optStr ev.status))
  if truthy ev.is_complete then
    let (s2, e2) := handleTaskCompletion s ev.status resp
    (s2, e1 :: Effect.logMsg "Task completed with status:" :: e2)
  else (s, [e1])

/-- handleTaskProgressEvent, app.js lines 583-593: pure projection. -/
def handleTaskProgressEvent (s : MonitorState) (ev : EventData) :
    MonitorState × List Effect :=
  (s, [Effect.project
    (some (jsOrStr ev.message
      ("Processed " ++ toString (ev.sources_processed.getD 0) ++ " of " ++
       toString (ev.sources_total.getD 0) ++ " sources")))
    (some "progress_stats")])

/-- handleTaskLogEvent, app.js lines 596-606: pure projection. -/
def handleTaskLogEvent (s : MonitorState) (ev : EventData) :
    MonitorState × List Effect :=
  (s, [Effect.project (some (jsOrStr ev.message "Processing..."))
    (some ("log." ++ jsOrStr ev.log_level "info"))])

/-- nextDelaySeconds: the wait time formula of app.js line 697,
Math.min(Math.pow(2, retryCount), 30). -/
def nextDelaySeconds (n : Nat) : Nat := min (2 ^ n) 30

/-- handleConnectionError, app.js lines 677-718: guarded by the completion
flag; increments the attempt counter, closes the channel, then either
escalates to the fallback monitor (rapid-failure heuristic or exhausted
attempts) or schedules an exponential backoff reconnect. -/
def handleConnectionError (s : MonitorState) (now : Nat) :
    MonitorState × List Effect :=
  if s.isTaskComplete then (s, [])
  else
    let s1 := { s with reconnectAttempts := s.reconnectAttempts + 1 }
    let (s2, e2) :=
      if s1.currentEventSource then
        ({ s1 with currentEventSource := false }, [Effect.closeChannel])
      else (s1, [])
    if 3 ≤ s2.reconnectAttempts ∧ now - s2.lastEventTime < 5000 then
      (s2, Effect.logMsg "Connection error. Attempt" :: e2 ++
        [Effect.logMsg "Rapid failures detected, likely authentication issue. Switching to robust monitoring.",
         Effect.startFallback])
    else if s2.reconnectAttempts ≤ s2.maxReconnectAttempts then
      let waitTime := nextDelaySeconds s2.reconnectAttempts * 1000
      ({ s2 with
          reconnectTimeoutField := some waitTime,
          reconnectTimerActive := true },
       Effect.logMsg "Connection error. Attempt" :: e2 ++
        [Effect.connStatus "reconnecting" s2.reconnectAttempts,
         Effect.sseEvent
           ("Connection interrupted. Reconnecting in " ++
            toString (waitTime / 1000) ++ "s... (attempt " ++
            toString s2.reconnectAttempts ++ "/" ++
            toString s2.maxReconnectAttempts ++ ")") "status",
         Effect.scheduleReconnect waitTime])
    else
      (s2, Effect.logMsg "Connection error. Attempt" :: e2 ++
        [Effect.logMsg "Max reconnection attempts reached, falling back to robust monitoring",
         Effect.sseEvent "Live feed unavailable. Switching to background monitoring to track completion..." "status",
         Effect.startFallback])

/-- handleTaskErrorEvent, app.js lines 609-632: message.includes on an
absent message field raises a TypeError (thrown); an authentication
message surfaces the auth failure and returns without reconnecting; any
other message is projected and handed to handleConnectionError. -/
def handleTaskErrorEvent (s : MonitorState) (ev : EventData) (now : Nat) :
    JsResult :=
  match ev.message with
  | none => .thrown s [Effect.logMsg "Task error:"]
  | some m =>
    if strIncludes m "Authentication required" ||
       strIncludes m "Unauthorized access" then
      .ok s [Effect.logMsg "Task error:",
        Effect.logMsg "Authentication error in SSE stream",
        Effect.errorModal "Authentication error. Please sign in again.",
        Effect.setLoading false, Effect.scheduleRedirect]
    else
      let (s2, e2) := handleConnectionError s now
      .ok s2 ([Effect.logMsg "Task error:",
        Effect.project (some ("Error: " ++ m)) (some "error")] ++ e2)

/-- handleRobustEvent, app.js lines 536-564: resets the attempt counter on
every received event and dispatches on the type tag; unknown or absent
types project a generic processing record. -/
def handleRobustEvent (s : MonitorState) (ev : EventData) (now : Nat)
    (resp : Option CompletionResult) : JsResult :=
  let s1 := { s with reconnectAttempts := 0 }
  let lg := Effect.logMsg "Robust event received:"
  match ev.type with
  | some "task.status" =>
    let (s2, e2) := handleTaskStatusEvent s1 ev resp
    .ok s2 (lg :: e2)
  | some "task.progress" =>
    let (s2, e2) := handleTaskProgressEvent s1 ev
    .ok s2 (lg :: e2)
  | some "task.log" =>
    let (s2, e2) := handleTaskLogEvent s1 ev
    .ok s2 (lg :: e2)
  | some "error" =>
    match handleTaskErrorEvent s1 ev now with
    | .ok s2 e2 => .ok s2 (lg :: e2)
    | .thrown s2 e2 => .thrown s2 (lg :: e2)
  | _ =>
    .ok s1 (lg :: [Effect.logMsg "Unknown event type:",
      Effect.project (some (jsOrStr ev.message "Processing...")) ev.type])

/-- The onmessage callback installed in connectToStreamRobust, app.js
lines 500-508: a none payload models a JSON.parse failure; otherwise
lastEventTime is updated and the event dispatched, with any exception of
the dispatch caught by the same try/catch. -/
def onMessage (s : MonitorState) (raw : Option EventData) (now : Nat)
    (resp : Option CompletionResult) : MonitorState × List Effect :=
  match raw with
  | none => (s, [Effect.logMsg "Failed to parse SSE event:"])
  | some ev =>
    let s1 := { s with lastEventTime := now }
    match handleRobustEvent s1 ev now resp with
    | .ok s2 e2 => (s2, e2)
    | .thrown s2 e2 => (s2, e2 ++ [Effect.logMsg "Failed to parse SSE event:"])

/-- connectToStreamRobust, app.js lines 491-533 (synchronous part):
guarded by the completion flag, opens a new EventSource. -/
def connectToStreamRobust (s : MonitorState) : MonitorState × List Effect :=
  if s.isTaskComplete then (s, [])
  else ({ s with currentEventSource := true }, [Effect.openChannel])

/-- The reconnect setTimeout callback of app.js lines 705-709: the timer
fires (consuming itself) and reconnects unless the task completed. -/
def reconnectTimerFire (s : MonitorState) : MonitorState × List Effect :=
  let s0 := { s with reconnectTimerActive := false }
  if s0.isTaskComplete then (s0, [])
  else connectToStreamRobust s0

/-- startPeriodicStatusCheck, app.js lines 765-794: clears a previous
interval when the field is set and starts a fresh 30 second interval. -/
def startPeriodicStatusCheck (s : MonitorState) : MonitorState × List Effect :=
  let (s1, e1) :=
    if s.statusCheckField then
      ({ s with statusCheckActive := false }, [Effect.clearStatusInterval])
    else (s, [])
  ({ s1 with statusCheckField := true, statusCheckActive := true },
   e1 ++ [Effect.startStatusInterval])

/-- One tick of the periodic status interval, app.js lines 770-793, with
the poll response passed explicitly (none models a failed request, which
is swallowed). -/
def statusCheckTick (s : MonitorState) (resp : Option StatusResult) :
    MonitorState × List Effect :=
  if s.isTaskComplete then
    ({ s with statusCheckActive := false }, [Effect.clearStatusInterval])
  else
    match resp with
    | none => (s, [Effect.logMsg "Periodic status check failed:"])
    | some r =>
      if r.is_complete then
        if r.status = some "completed" then
          ({ s with statusCheckActive := false },
           [Effect.clearStatusInterval, Effect.manualCheck])
        else
          ({ s with statusCheckActive := false },
           [Effect.clearStatusInterval,
            Effect.errorModal ("Task completed with status: " ++ optStr r.status)])
      else (s, [])

/-- showConnectionLostUI, app.js lines 754-762: feed entry plus start of
the periodic status check. -/
def showConnectionLostUI (s : MonitorState) : MonitorState × List Effect :=
  let (s1, e1) := startPeriodicStatusCheck s
  (s1, Effect.sseEvent "Connection lost, but research continues in background. Checking for updates..." "error" :: e1)

/-- startRobustMonitoring, app.js lines 721-751: guarded by the completion
flag; issues the completion probe (response passed explicitly) and either
shows the success outcome, shows an error outcome, or on a network failure
degrades to the periodic status check. -/
def startRobustMonitoring (s : MonitorState) (resp : Option CompletionResult) :
    MonitorState × List Effect :=
  if s.isTaskComplete then (s, [])
  else
    let pre := [Effect.logMsg "Starting robust monitoring fallback for task:",
      Effect.connStatus "monitoring" 0,
      Effect.sseEvent "Using advanced monitoring to track your research progress..." "status"]
    match resp with
    | some r =>
      if r.success && r.task_completed then
        let (s2, e2) := showSuccessModal s
        (s2, pre ++ e2)
      else (s, pre ++ [Effect.errorModal (jsOrStr r.error "Task monitoring failed")])
    | none =>
      let (s2, e2) := showConnectionLostUI s
      (s2, pre ++ Effect.logMsg "Robust monitoring failed:" :: e2)

/-- The 30 second watchdog setTimeout callback of startTaskStream, app.js
lines 483-487: fires once and starts the fallback monitor unless the task
completed. -/
def watchdogFire (s : MonitorState) (resp : Option CompletionResult) :
    MonitorState × List Effect :=
  let s0 := { s with watchdogActive := false }
  if s0.isTaskComplete then (s0, [])
  else startRobustMonitoring s0 resp

/-- startTaskStream, app.js lines 471-488 (synchronous part): initialises
the monitor fields at start time t0, opens the channel and schedules the
watchdog.  Fields not assigned there are modelled as initially clear. -/
def startTaskStreamState (t0 : Nat) : MonitorState :=
  let s : MonitorState :=
    { isTaskComplete := false, reconnectAttempts := 0,
      maxReconnectAttempts := 10, lastEventTime := t0,
      currentEventSource := false, reconnectTimeoutField := none,
      reconnectTimerActive := false, statusCheckField := false,
      statusCheckActive := false, progressField := false,
      progressActive := false, pollingField := false,
      pollingActive := false, watchdogActive := false }
  let (s1, _) := connectToStreamRobust s
  { s1 with watchdogActive := true }

/-- cleanup, app.js lines 1041-1050: sets the completion flag, clears the
progress interval when its field is set, and runs cleanupConnections. -/
def cleanup (s : MonitorState) : MonitorState × List Effect :=
  let s1 := { s with isTaskComplete := true }
  let (s2, e2) :=
    if s1.progressField then
      ({ s1 with progressActive := false }, [Effect.clearProgressInterval])
    else (s1, [])
  let (s3, e3) := cleanupConnections s2
  (s3, e2 ++ e3)

/-- A task.status event whose completion flag is set: the
Terminated-triggering event of the monitor. -/
def completionEvent : EventData :=
  { type := some "task.status", status := some "completed",
    is_complete := some true, message := some "Research complete" }

/-- Two consecutive deliveries of the completion event to the channel
message handler, with the respective completion probe responses. -/
def deliverCompletionTwice (s : MonitorState) (now1 now2 : Nat)
    (resp1 resp2 : Option CompletionResult) : MonitorState × List Effect :=
  let p1 := onMessage s (some completionEvent) now1 resp1
  let p2 := onMessage p1.1 (some completionEvent) now2 resp2
  (p2.1, p1.2 ++ p2.2)

/-- Classification of the reaction of the connection-error handler. -/
inductive StepKind where
  | sched
  | fallback
  | other
  deriving DecidableEq, Repr

/-- Classifies the effects of one connection-error invocation: did it
escalate to the fallback monitor, schedule a reconnect, or neither. -/
def classifyStep (e : List Effect) : StepKind :=
  if e.any Effect.isFallback then StepKind.fallback
  else if e.any Effect.isSchedule then StepKind.sched
  else StepKind.other

/-- Runs a sequence of connection errors at the given times, returning
the effect list of each invocation. -/
def runErrors : MonitorState → List Nat → List (List Effect)
  | _, [] => []
  | s, t :: ts =>
    (handleConnectionError s t).2 :: runErrors (handleConnectionError s t).1 ts

/-- Eleven error times, each at least 6 seconds after the session start
at time 0 (and 6 seconds apart). -/
def c4Times : List Nat :=
  [6000, 12000, 18000, 24000, 30000, 36000, 42000, 48000, 54000, 60000, 66000]

/-! ## Concrete states and events used to instantiate the theorems -/

/-- A decoded event of type error carrying no message field; dispatching
it makes message.includes throw a TypeError in handleTaskErrorEvent. -/
def errorEventNoMessage : EventData := { type := some "error" }

/-- A monitoring state two failed attempts into a session that has seen
no event since start: the third error arrives within the rapid window. -/
def rapidState : MonitorState :=
  { startTaskStreamState 1000 with
      reconnectAttempts := 2,
      currentEventSource := false }

/-- A monitoring state four failed attempts into a session, long after
the last event. -/
def delayState : MonitorState :=
  { startTaskStreamState 1000 with
      reconnectAttempts := 4,
      currentEventSource := false }

/-- A completed session that still counts five reconnect attempts. -/
def c1State : MonitorState :=
  { startTaskStreamState 0 with
      isTaskComplete := true,
      reconnectAttempts := 5 }

/-- A well-formed progress event. -/
def c1Event : EventData :=
  { type := some "task.progress", message := some "Reading sources",
    sources_processed := some 3, sources_total := some 9 }

/-- A freshly started monitoring session. -/
def c5State : MonitorState := startTaskStreamState 0

/-- An error event whose message signals an authorization failure. -/
def c5Event : EventData :=
  { type := some "error", message := some "Unauthorized access to stream" }

/-- A session mid-Reconnecting with a pending reconnect timer, an active
periodic status check, progress animation and legacy polling. -/
def c7State : MonitorState :=
  { startTaskStreamState 0 with
      currentEventSource := false,
      reconnectAttempts := 2,
      reconnectTimeoutField := some 4000,
      reconnectTimerActive := true,
      statusCheckField := true,
      statusCheckActive := true,
      progressField := true,
      progressActive := true,
      pollingField := true,
      pollingActive := true }

/-! ## Theorems about the claims -/

/-- Claim C9: a channel message whose payload is not valid JSON is logged
and dropped with no state change, and the monitoring session is not
aborted: a subsequent message is handled exactly as it would have been
without the malformed one. -/
theorem c9_malformed_message_dropped (s : MonitorState) (now : Nat)
    (resp : Option CompletionResult) :
    onMessage s none now resp = (s, [Effect.logMsg "Failed to parse SSE event:"])
    ∧ ∀ (raw : Option EventData) (now2 : Nat) (resp2 : Option CompletionResult),
        onMessage (onMessage s none now resp).1 raw now2 resp2
          = onMessage s raw now2 resp2 :=
  ⟨rfl, fun _ _ _ => rfl⟩

/-- Claim C10: the channel message handler is total: the TypeError raised
inside the typed error handler on a message-less error event is raised
(the dispatch result is thrown) but it is caught by the single enclosing
try/catch of the onmessage callback, which returns normally having dropped
the message after the partial mutations that preceded the throw, with no
projection emitted. -/
theorem c10_typed_handler_exception_caught (s : MonitorState) (now : Nat)
    (resp : Option CompletionResult) :
    (handleRobustEvent { s with lastEventTime := now } errorEventNoMessage now resp).isThrown
      = true
    ∧ onMessage s (some errorEventNoMessage) now resp
        = ({ s with lastEventTime := now, reconnectAttempts := 0 },
           [Effect.logMsg "Robust event received:", Effect.logMsg "Task error:",
            Effect.logMsg "Failed to parse SSE event:"])
    ∧ (onMessage s (some errorEventNoMessage) now resp).2.any Effect.isProjection
        = false :=
  ⟨rfl, rfl, rfl⟩

/-- Claim C3: with the task not complete, a connection error that makes
the incremented attempt counter reach 3 while less than 5000 ms have
passed since the last event escalates to the fallback monitor at once and
schedules no reconnect wait. -/
theorem c3_rapid_failure_escalates (s : MonitorState) (now : Nat)
    (hc : s.isTaskComplete = false)
    (h2 : 3 ≤ s.reconnectAttempts + 1)
    (h3 : now - s.lastEventTime < 5000) :
    Effect.startFallback ∈ (handleConnectionError s now).2
    ∧ (handleConnectionError s now).2.filter Effect.isSchedule = []
    ∧ (handleConnectionError s now).1.reconnectTimerActive = s.reconnectTimerActive
    ∧ (handleConnectionError s now).1.reconnectTimeoutField = s.reconnectTimeoutField := by
  cases hcs : s.currentEventSource <;>
    simp [handleConnectionError, hc, hcs, h2, h3, Effect.isSchedule]

/-- Witness for C3 at a concrete rapid-failure state. -/
theorem c3_rapid_failure_escalates_witness :
    (rapidState.isTaskComplete = false
      ∧ 3 ≤ rapidState.reconnectAttempts + 1
      ∧ (2500 : Nat) - rapidState.lastEventTime < 5000)
    ∧ (Effect.startFallback ∈ (handleConnectionError rapidState 2500).2
      ∧ (handleConnectionError rapidState 2500).2.filter Effect.isSchedule = []
      ∧ (handleConnectionError rapidState 2500).1.reconnectTimerActive
          = rapidState.reconnectTimerActive
      ∧ (handleConnectionError rapidState 2500).1.reconnectTimeoutField
          = rapidState.reconnectTimeoutField) :=
  ⟨by decide,
   c3_rapid_failure_escalates rapidState 2500 (by decide) (by decide) (by decide)⟩

/-- Claim C8: when a reconnect is scheduled after the n-th connection
error (attempt counter n between 1 and the maximum of 10, rapid-failure
heuristic not firing), the single scheduled delay is exactly
min(2 pow n, 30) seconds, deterministically. -/
theorem c8_reconnect_delay_formula (s : MonitorState) (now n : Nat)
    (hc : s.isTaskComplete = false)
    (ha : s.reconnectAttempts + 1 = n)
    (hmax : s.maxReconnectAttempts = 10)
    (hn : n ≤ 10)
    (hnr : ¬ (3 ≤ n ∧ now - s.lastEventTime < 5000)) :
    (handleConnectionError s now).2.filter Effect.isSchedule
      = [Effect.scheduleReconnect (min (2 ^ n) 30 * 1000)] := by
  cases hcs : s.currentEventSource <;>
    simp [handleConnectionError, hc, hcs, ha, hmax, hn, hnr, nextDelaySeconds,
      Effect.isSchedule]

/-- Witness for C8 at a concrete state with attempt count 5. -/
theorem c8_reconnect_delay_formula_witness :
    (delayState.isTaskComplete = false
      ∧ delayState.reconnectAttempts + 1 = 5
      ∧ delayState.maxReconnectAttempts = 10
      ∧ (5 : Nat) ≤ 10
      ∧ ¬ (3 ≤ 5 ∧ (90000 : Nat) - delayState.lastEventTime < 5000))
    ∧ (handleConnectionError delayState 90000).2.filter Effect.isSchedule
        = [Effect.scheduleReconnect (min (2 ^ 5) 30 * 1000)] :=
  ⟨by decide,
   c8_reconnect_delay_formula delayState 90000 5 (by decide) (by decide)
     (by decide) (by decide) (by decide)⟩

/-- Claim C1 counterexample: the channel message handler has no
completion guard: delivered to a session whose completion flag is set, a
progress message still resets reconnectAttempts (5 to 0), updates
lastEventTime, and triggers a UI projection, so the claimed invariant
fails for the message handler. -/
theorem c1_counterexample :
    (onMessage c1State (some c1Event) 2000 none).1 ≠ c1State
    ∧ (onMessage c1State (some c1Event) 2000 none).1.reconnectAttempts = 0
    ∧ c1State.reconnectAttempts = 5
    ∧ (onMessage c1State (some c1Event) 2000 none).1.lastEventTime = 2000
    ∧ (onMessage c1State (some c1Event) 2000 none).2.any Effect.isProjection = true := by
  decide

/-- Claim C1 amended: once the completion flag is set, the connection
error handler, the fallback monitor, the reconnect timer callback, the
periodic status check and the watchdog are all no-ops on the monitor
state (beyond consuming their own timer) and produce no projection; the
channel message handler is the exception and is excluded here. -/
theorem c1_amended_terminal_handlers (s : MonitorState) (now : Nat)
    (resp : Option CompletionResult) (st : Option StatusResult)
    (h : s.isTaskComplete = true) :
    handleConnectionError s now = (s, [])
    ∧ startRobustMonitoring s resp = (s, [])
    ∧ reconnectTimerFire s = ({ s with reconnectTimerActive := false }, [])
    ∧ statusCheckTick s st
        = ({ s with statusCheckActive := false }, [Effect.clearStatusInterval])
    ∧ watchdogFire s resp = ({ s with watchdogActive := false }, []) := by
  refine ⟨?_, ?_, ?_, ?_, ?_⟩ <;>
    simp [handleConnectionError, startRobustMonitoring, reconnectTimerFire,
      statusCheckTick, watchdogFire, connectToStreamRobust, h]

/-- Witness for the amended C1 at a concrete completed state. -/
theorem c1_amended_terminal_handlers_witness :
    c1State.isTaskComplete = true
    ∧ (handleConnectionError c1State 2000 = (c1State, [])
      ∧ startRobustMonitoring c1State none = (c1State, [])
      ∧ reconnectTimerFire c1State = ({ c1State with reconnectTimerActive := false }, [])
      ∧ statusCheckTick c1State none
          = ({ c1State with statusCheckActive := false }, [Effect.clearStatusInterval])
      ∧ watchdogFire c1State none = ({ c1State with watchdogActive := false }, [])) :=
  ⟨by decide, c1_amended_terminal_handlers c1State 2000 none none (by decide)⟩

/-- Claim C5 counterexample: after the auth-failure branch of the error
handler runs, the session is not terminal: the completion flag is still
false, the channel is still held, and the pending watchdog still fires
the fallback monitor with further projections, so monitoring activity
continues for the session. -/
theorem c5_counterexample :
    (handleTaskErrorEvent c5State c5Event 40000).state.isTaskComplete = false
    ∧ (handleTaskErrorEvent c5State c5Event 40000).state.currentEventSource = true
    ∧ (handleTaskErrorEvent c5State c5Event 40000).state.watchdogActive = true
    ∧ (watchdogFire (handleTaskErrorEvent c5State c5Event 40000).state none).2.any
        Effect.isProjection = true := by
  decide

/-- Claim C5 amended: on an error event whose message contains
Unauthorized access or Authentication required, the handler surfaces the
auth failure (error modal, loading reset, scheduled login redirect) and
returns without touching the monitor state and without entering the
connection-error/reconnect path; it does not, however, mark the session
complete or tear down the channel or timers, so pending monitors can
still run. -/
theorem c5_amended_auth_error_no_reconnect (s : MonitorState) (ev : EventData)
    (now : Nat) (m : String)
    (hmsg : ev.message = some m)
    (hauth : (strIncludes m "Authentication required" ||
              strIncludes m "Unauthorized access") = true) :
    handleTaskErrorEvent s ev now = .ok s
      [Effect.logMsg "Task error:",
       Effect.logMsg "Authentication error in SSE stream",
       Effect.errorModal "Authentication error. Please sign in again.",
       Effect.setLoading false, Effect.scheduleRedirect] := by
  simp [handleTaskErrorEvent, hmsg, hauth]

/-- Witness for the amended C5 at a concrete auth-error event. -/
theorem c5_amended_auth_error_no_reconnect_witness :
    (c5Event.message = some "Unauthorized access to stream"
      ∧ (strIncludes "Unauthorized access to stream" "Authentication required" ||
         strIncludes "Unauthorized access to stream" "Unauthorized access") = true)
    ∧ handleTaskErrorEvent c5State c5Event 40000 = .ok c5State
        [Effect.logMsg "Task error:",
         Effect.logMsg "Authentication error in SSE stream",
         Effect.errorModal "Authentication error. Please sign in again.",
         Effect.setLoading false, Effect.scheduleRedirect] :=
  ⟨⟨by decide, by decide⟩,
   c5_amended_auth_error_no_reconnect c5State c5Event 40000
     "Unauthorized access to stream" (by decide) (by decide)⟩

/-- Claim C6 counterexample: a completion probe response without the
completed flag does not fall through to the periodic status polling of
strategy 2: it produces an error modal outcome and never starts the
status interval. -/
theorem c6_counterexample :
    Effect.errorModal "Task monitoring failed"
        ∈ (startRobustMonitoring (startTaskStreamState 0)
            (some ⟨true, false, none⟩)).2
    ∧ Effect.startStatusInterval
        ∉ (startRobustMonitoring (startTaskStreamState 0)
            (some ⟨true, false, none⟩)).2 := by
  decide

/-- Claim C6 amended: in the fallback completion probe, a successful
response with the completed flag ends the session with the success
outcome; a response without the flag (or an unsuccessful one) produces
exactly one error-modal outcome and does not fall through to periodic
polling; only a network failure falls through to strategy 2, starting the
30 second status interval with no outcome projected. -/
theorem c6_amended_probe_outcomes (s : MonitorState)
    (hc : s.isTaskComplete = false) :
    (∀ r : CompletionResult, (r.success && r.task_completed) = true →
        Effect.successModal ∈ (startRobustMonitoring s (some r)).2
        ∧ (startRobustMonitoring s (some r)).1.isTaskComplete = true)
    ∧ (∀ r : CompletionResult, (r.success && r.task_completed) = false →
        (startRobustMonitoring s (some r)).2.filter Effect.isOutcome
          = [Effect.errorModal (jsOrStr r.error "Task monitoring failed")]
        ∧ Effect.startStatusInterval ∉ (startRobustMonitoring s (some r)).2
        ∧ (startRobustMonitoring s (some r)).1 = s)
    ∧ (Effect.startStatusInterval ∈ (startRobustMonitoring s none).2
        ∧ (startRobustMonitoring s none).2.any Effect.isOutcome = false
        ∧ (startRobustMonitoring s none).1.statusCheckActive = true) := by
  refine ⟨?_, ?_, ?_⟩
  · intro r hr
    constructor <;>
      (simp [startRobustMonitoring, hc, hr, showSuccessModal];
        all_goals (split_ifs <;> simp))
  · intro r hr
    refine ⟨?_, ?_, ?_⟩ <;>
      simp [startRobustMonitoring, hc, hr, Effect.isOutcome]
  · refine ⟨?_, ?_, ?_⟩ <;>
      (simp [startRobustMonitoring, hc, showConnectionLostUI,
        startPeriodicStatusCheck, Effect.isOutcome];
        all_goals (split_ifs <;> simp))

/-- Witness for the amended C6 at a concrete not-completed probe
response. -/
theorem c6_amended_probe_outcomes_witness :
    ((startTaskStreamState 0).isTaskComplete = false
      ∧ ((⟨true, false, some "boom"⟩ : CompletionResult).success &&
         (⟨true, false, some "boom"⟩ : CompletionResult).task_completed) = false)
    ∧ ((startRobustMonitoring (startTaskStreamState 0)
          (some ⟨true, false, some "boom"⟩)).2.filter Effect.isOutcome
        = [Effect.errorModal (jsOrStr (some "boom") "Task monitoring failed")]
      ∧ Effect.startStatusInterval ∉ (startRobustMonitoring (startTaskStreamState 0)
          (some ⟨true, false, some "boom"⟩)).2
      ∧ (startRobustMonitoring (startTaskStreamState 0)
          (some ⟨true, false, some "boom"⟩)).1 = startTaskStreamState 0) :=
  ⟨⟨by decide, by decide⟩,
   (c6_amended_probe_outcomes (startTaskStreamState 0) (by decide)).2.1
     ⟨true, false, some "boom"⟩ (by decide)⟩

/-- Claim C7 counterexample: cleanup does not invalidate every
outstanding timer: a pending reconnect timeout and the periodic
status-check interval are still scheduled after cleanup returns, so their
callbacks still fire. -/
theorem c7_counterexample :
    (cleanup c7State).1.reconnectTimerActive = true
    ∧ (cleanup c7State).1.statusCheckActive = true := by
  decide

/-- Claim C7 amended: cleanup sets the completion flag, closes the
channel and stops the progress and legacy polling intervals, but leaves a
pending reconnect timeout and the periodic status-check interval
scheduled; their later callbacks are then guarded no-ops: the reconnect
callback performs no reconnect and no projection, and the status tick
only clears its own interval with no projection, so no Streaming re-entry
and no projections occur after cleanup. -/
theorem c7_amended_cleanup (s : MonitorState) (st : Option StatusResult) :
    (cleanup s).1.isTaskComplete = true
    ∧ (cleanup s).1.currentEventSource = false
    ∧ (cleanup s).1.pollingActive = (s.pollingActive && !s.pollingField)
    ∧ (cleanup s).1.progressActive = (s.progressActive && !s.progressField)
    ∧ (cleanup s).1.reconnectTimerActive = s.reconnectTimerActive
    ∧ (cleanup s).1.statusCheckActive = s.statusCheckActive
    ∧ reconnectTimerFire (cleanup s).1
        = ({ (cleanup s).1 with reconnectTimerActive := false }, [])
    ∧ statusCheckTick (cleanup s).1 st
        = ({ (cleanup s).1 with statusCheckActive := false },
           [Effect.clearStatusInterval]) := by
  cases hpf : s.progressField <;> cases hpo : s.pollingField <;>
    cases hce : s.currentEventSource <;>
      simp [cleanup, cleanupConnections, stopPollingFallback, reconnectTimerFire,
        statusCheckTick, connectToStreamRobust, hpf, hpo, hce]

/-! ## Helper lemmas shared by the remaining claims -/

/-- Counting over an empty effect list. -/
theorem countE_nil (p : Effect → Bool) : countE p [] = 0 := rfl

/-- Counting over a cons. -/
theorem countE_cons (p : Effect → Bool) (x : Effect) (l : List Effect) :
    countE p (x :: l) = (if p x then 1 else 0) + countE p l := by
  simp [countE, List.filter_cons]
  split_ifs <;> simp [Nat.add_comm]

/-- Counting distributes over append. -/
theorem countE_append (p : Effect → Bool) (l1 l2 : List Effect) :
    countE p (l1 ++ l2) = countE p l1 + countE p l2 := by
  simp [countE]

/-- showSuccessModal renders exactly one outcome, closes the channel
exactly when it was held, and leaves the session complete with no held
channel. -/
theorem showSuccessModal_props (s : MonitorState) :
    countE Effect.isOutcome (showSuccessModal s).2 = 1
    ∧ countE Effect.isClose (showSuccessModal s).2
        = (if s.currentEventSource then 1 else 0)
    ∧ (showSuccessModal s).1.currentEventSource = false
    ∧ (showSuccessModal s).1.isTaskComplete = true := by
  cases hsc : s.statusCheckField <;> cases hces : s.currentEventSource <;>
    rcases hrt : s.reconnectTimeoutField with _ | w <;>
      simp [showSuccessModal, hsc, hces, hrt, countE, Effect.isOutcome,
        Effect.isClose]

/-- cleanupConnections renders no outcome, closes the channel exactly
when it was held, and leaves no held channel. -/
theorem cleanupConnections_props (s : MonitorState) :
    countE Effect.isOutcome (cleanupConnections s).2 = 0
    ∧ countE Effect.isClose (cleanupConnections s).2
        = (if s.currentEventSource then 1 else 0)
    ∧ (cleanupConnections s).1.currentEventSource = false
    ∧ (cleanupConnections s).1.isTaskComplete = s.isTaskComplete := by
  cases hces : s.currentEventSource <;> cases hpf : s.pollingField <;>
    simp [cleanupConnections, stopPollingFallback, hces, hpf, countE,
      Effect.isOutcome, Effect.isClose]

/-- handleTaskCompletion always renders exactly one outcome (success or
error modal), closes the channel exactly when it was held on entry, and
leaves the session complete with no held channel. -/
theorem handleTaskCompletion_props (s : MonitorState) (status : Option String)
    (resp : Option CompletionResult) :
    countE Effect.isOutcome (handleTaskCompletion s status resp).2 = 1
    ∧ countE Effect.isClose (handleTaskCompletion s status resp).2
        = (if s.currentEventSource then 1 else 0)
    ∧ (handleTaskCompletion s status resp).1.currentEventSource = false
    ∧ (handleTaskCompletion s status resp).1.isTaskComplete = true := by
  rcases hcp : cleanupConnections { s with isTaskComplete := true } with ⟨s2, e2⟩
  have hcc := cleanupConnections_props { s with isTaskComplete := true }
  rw [hcp] at hcc
  obtain ⟨hc0, hc1, hc2, hc3⟩ := hcc
  simp only at hc1 hc2 hc3
  rcases resp with _ | r
  · by_cases hst : status = some "completed" <;>
      simp [handleTaskCompletion, hcp, hst, countE_append, countE_cons, countE_nil,
        Effect.isOutcome, Effect.isClose, hc0, hc1, hc2, hc3]
  · by_cases hr : (r.success && r.task_completed) = true
    · rcases hsm : showSuccessModal s2 with ⟨s4, e4⟩
      have hso := showSuccessModal_props s2
      rw [hsm] at hso
      obtain ⟨ho1, ho2, ho3, ho4⟩ := hso
      simp only at ho1 ho2 ho3 ho4
      rw [hc2] at ho2
      by_cases hst : status = some "completed" <;>
        simp [handleTaskCompletion, hcp, hst, hr, hsm, countE_append, countE_cons,
          countE_nil, Effect.isOutcome, Effect.isClose, hc0, hc1, hc2, hc3,
          ho1, ho2, ho3, ho4]
    · by_cases hst : status = some "completed" <;>
        simp [handleTaskCompletion, hcp, hst, hr, countE_append, countE_cons,
          countE_nil, Effect.isOutcome, Effect.isClose, hc0, hc1, hc2, hc3]

/-- Delivering the completion event through the message handler reduces
to handleTaskCompletion after the unguarded mutations of the callback. -/
theorem onMessage_completion_eq (s : MonitorState) (now : Nat)
    (resp : Option CompletionResult) :
    onMessage s (some completionEvent) now resp
      = ((handleTaskCompletion
            { s with lastEventTime := now, reconnectAttempts := 0 }
            (some "completed") resp).1,
         Effect.logMsg "Robust event received:"
           :: Effect.project (some "Research complete") (some "status.completed")
           :: Effect.logMsg "Task completed with status:"
           :: (handleTaskCompletion
                { s with lastEventTime := now, reconnectAttempts := 0 }
                (some "completed") resp).2) := rfl

/-- Claim C2 counterexample: delivering the completion event twice in a
row produces two outcome projections, not one, and the second delivery is
not a no-op (it emits effects). -/
theorem c2_counterexample :
    countE Effect.isOutcome
      (deliverCompletionTwice (startTaskStreamState 0) 5 6
        (some ⟨true, true, none⟩) (some ⟨true, true, none⟩)).2 = 2
    ∧ (onMessage
        (onMessage (startTaskStreamState 0) (some completionEvent) 5
          (some ⟨true, true, none⟩)).1
        (some completionEvent) 6 (some ⟨true, true, none⟩)).2 ≠ [] := by
  decide

/-- Claim C2 amended: the completion path has no reentrancy guard, so two
consecutive deliveries of the completion event produce exactly two
outcome projections and run the teardown twice; the second delivery is
not a no-op, but the second teardown closes nothing because the channel
is already closed, so the channel is closed exactly once overall. -/
theorem c2_amended_double_completion (s : MonitorState) (now1 now2 : Nat)
    (resp1 resp2 : Option CompletionResult) :
    countE Effect.isOutcome (deliverCompletionTwice s now1 now2 resp1 resp2).2 = 2
    ∧ (onMessage (onMessage s (some completionEvent) now1 resp1).1
        (some completionEvent) now2 resp2).2 ≠ []
    ∧ countE Effect.isClose (deliverCompletionTwice s now1 now2 resp1 resp2).2
        = (if s.currentEventSource then 1 else 0) := by
  have h1 := handleTaskCompletion_props
    { s with lastEventTime := now1, reconnectAttempts := 0 } (some "completed") resp1
  obtain ⟨h11, h12, h13, h14⟩ := h1
  have h2 := handleTaskCompletion_props
    { (handleTaskCompletion
        { s with lastEventTime := now1, reconnectAttempts := 0 }
        (some "completed") resp1).1 with
      lastEventTime := now2, reconnectAttempts := 0 }
    (some "completed") resp2
  obtain ⟨h21, h22, h23, h24⟩ := h2
  simp only at h12 h22
  refine ⟨?_, ?_, ?_⟩
  · simp [deliverCompletionTwice, onMessage_completion_eq, countE_append,
      countE_cons, Effect.isOutcome, h11, h21]
  · simp [onMessage_completion_eq]
  · rcases hq : handleTaskCompletion
        { s with lastEventTime := now1, reconnectAttempts := 0 }
        (some "completed") resp1 with ⟨q1s, q1e⟩
    rw [hq] at h12 h13
    have h22n := (handleTaskCompletion_props
      { q1s with
          lastEventTime := now2,
          reconnectAttempts := 0,
          currentEventSource := false }
      (some "completed") resp2).2.1
    simp only at h12 h13
    simp at h22n
    simp [deliverCompletionTwice, onMessage_completion_eq, hq, countE_append,
      countE_cons, Effect.isClose, h12, h22n, h13]

/-- With the task not complete, one connection error leaves the
completion flag false, increments the attempt counter, and preserves the
last event time and the attempt maximum. -/
theorem hce_state_fields (s : MonitorState) (now : Nat)
    (hc : s.isTaskComplete = false) :
    (handleConnectionError s now).1.isTaskComplete = false
    ∧ (handleConnectionError s now).1.reconnectAttempts = s.reconnectAttempts + 1
    ∧ (handleConnectionError s now).1.lastEventTime = s.lastEventTime
    ∧ (handleConnectionError s now).1.maxReconnectAttempts = s.maxReconnectAttempts := by
  refine ⟨?_, ?_, ?_, ?_⟩ <;>
    (cases hcs : s.currentEventSource <;>
      simp [handleConnectionError, hc, hcs] <;>
        split_ifs <;> simp)

/-- In the slow-failure regime with attempt budget left, one connection
error schedules a reconnect and does not escalate. -/
theorem hce_classify_sched (s : MonitorState) (now : Nat)
    (hc : s.isTaskComplete = false)
    (hnow : s.lastEventTime + 5000 ≤ now)
    (hle : s.reconnectAttempts + 1 ≤ s.maxReconnectAttempts) :
    classifyStep (handleConnectionError s now).2 = StepKind.sched := by
  have hfast : ¬ (now - s.lastEventTime < 5000) := by omega
  cases hcs : s.currentEventSource <;>
    simp [handleConnectionError, classifyStep, hc, hcs, hfast, hle,
      Effect.isFallback, Effect.isSchedule]

/-- In the slow-failure regime with the attempt budget exceeded, one
connection error escalates to the fallback monitor and schedules no
reconnect. -/
theorem hce_classify_fallback (s : MonitorState) (now : Nat)
    (hc : s.isTaskComplete = false)
    (hnow : s.lastEventTime + 5000 ≤ now)
    (hgt : s.maxReconnectAttempts < s.reconnectAttempts + 1) :
    classifyStep (handleConnectionError s now).2 = StepKind.fallback := by
  have hfast : ¬ (now - s.lastEventTime < 5000) := by omega
  have hng : ¬ (s.reconnectAttempts + 1 ≤ s.maxReconnectAttempts) := by omega
  cases hcs : s.currentEventSource <;>
    simp [handleConnectionError, classifyStep, hc, hcs, hfast, hng,
      Effect.isFallback, Effect.isSchedule]

/-- With k attempts of budget left, k plus one slow-regime connection
errors schedule k reconnects and then escalate to the fallback monitor. -/
theorem runErrors_budget (k : Nat) :
    ∀ (s : MonitorState) (times : List Nat),
      s.isTaskComplete = false →
      s.reconnectAttempts + k = s.maxReconnectAttempts →
      times.length = k + 1 →
      (∀ t ∈ times, s.lastEventTime + 5000 ≤ t) →
      (runErrors s times).map classifyStep
        = List.replicate k StepKind.sched ++ [StepKind.fallback] := by
  induction k with
  | zero =>
    intro s times hc ha hlen ht
    rcases times with _ | ⟨t, ts⟩
    · simp at hlen
    · have hts : ts = [] := by
        have : ts.length = 0 := by simpa using hlen
        simpa using this
      subst hts
      simp [runErrors,
        hce_classify_fallback s t hc (ht t (by simp)) (by omega)]
  | succ k ih =>
    intro s times hc ha hlen ht
    rcases times with _ | ⟨t, ts⟩
    · simp at hlen
    · have hlts : ts.length = k + 1 := by simpa using hlen
      have hht := ht t (by simp)
      have hsched := hce_classify_sched s t hc hht (by omega)
      obtain ⟨h1, h2, h3, h4⟩ := hce_state_fields s t hc
      have ha' : (handleConnectionError s t).1.reconnectAttempts + k
          = (handleConnectionError s t).1.maxReconnectAttempts := by
        rw [h2, h4]; omega
      have ht' : ∀ u ∈ ts, (handleConnectionError s t).1.lastEventTime + 5000 ≤ u := by
        intro u hu
        rw [h3]
        exact ht u (List.mem_cons_of_mem _ hu)
      simp only [runErrors, List.map_cons, hsched,
        ih (handleConnectionError s t).1 ts h1 ha' hlts ht']
      simp [List.replicate_succ]

/-- Claim C4: from a fresh session (attempt counter 0, maximum 10), 11
connection errors each at least 6 seconds after the last event schedule a
reconnect on the first 10 errors and escalate to the fallback monitor on
the 11th, which schedules no further reconnect. -/
theorem c4_attempts_exhausted_fallback (s : MonitorState) (times : List Nat)
    (hc : s.isTaskComplete = false)
    (ha : s.reconnectAttempts = 0)
    (hmax : s.maxReconnectAttempts = 10)
    (hlen : times.length = 11)
    (ht : ∀ t ∈ times, s.lastEventTime + 6000 ≤ t) :
    (runErrors s times).map classifyStep
      = List.replicate 10 StepKind.sched ++ [StepKind.fallback] :=
  runErrors_budget 10 s times hc (by omega) (by omega)
    (fun t htm => by have := ht t htm; omega)

/-- Witness for C4 at the fresh session started at time 0 with 11 error
times 6 seconds apart. -/
theorem c4_attempts_exhausted_fallback_witness :
    ((startTaskStreamState 0).isTaskComplete = false
      ∧ (startTaskStreamState 0).reconnectAttempts = 0
      ∧ (startTaskStreamState 0).maxReconnectAttempts = 10
      ∧ c4Times.length = 11
      ∧ ∀ t ∈ c4Times, (startTaskStreamState 0).lastEventTime + 6000 ≤ t)
    ∧ (runErrors (startTaskStreamState 0) c4Times).map classifyStep
        = List.replicate 10 StepKind.sched ++ [StepKind.fallback] :=
  ⟨by decide,
   c4_attempts_exhausted_fallback (startTaskStreamState 0) c4Times
     (by decide) (by decide) (by decide) (by decide) (by decide)⟩

end MRApp
